import Mathlib

/-!
Verification of the docker provisioner core (src/provision/docker/docker.go).

The core shells out to an external container runtime. External collaborators
(the configuration package, the logger, and the process executor) are modelled
at their interface boundary, as the specification prescribes: configuration is
a key-value environment passed in, the executor is an `Invoker` function
passed in, and every log line / process execution is recorded as an `Event`
in the order the Go code performs it.
-/

namespace Docker

/-- Errors crossing the interface boundary.
`configErr key` models the error returned by `config.GetString`/`config.GetList`
for a missing (or wrongly typed) key; `execErr msg` models an error produced by
the process executor; `domain msg` models an `errors.New(msg)` created inside
docker.go itself. -/
inductive Err where
  | configErr (key : String)
  | execErr (msg : String)
  | domain (msg : String)
deriving DecidableEq, Repr

/-- The message attached to an error, modelling Go `err.Error()`. -/
def errString : Err → String
  | Err.configErr key => "key " ++ key ++ " not found"
  | Err.execErr m => m
  | Err.domain m => m

/-- Whether an error is a domain error created by docker.go (as opposed to a
passthrough of a configuration or executor error). -/
def isDomainErr : Err → Bool
  | Err.domain _ => true
  | _ => false

/-- Whether an optional error is present and is a configuration error. -/
def isConfigErrOpt : Option Err → Bool
  | some (Err.configErr _) => true
  | _ => false

/-- Configuration values: the config file holds strings and lists of strings. -/
inductive ConfigVal where
  | str (s : String)
  | list (xs : List String)
deriving DecidableEq, Repr

/-- Configuration environment, modelling the external config package at its
interface boundary (spec section 1: configuration loading is out of scope,
specified only at the interface). -/
def Config : Type := List (String × ConfigVal)

def lookupCfg : Config → String → Option ConfigVal
  | [], _ => none
  | (k, v) :: rest, key => if k = key then some v else lookupCfg rest key

/-- Models `config.GetString(key)`: a string value, or an error when the key
is absent or not a string. -/
def getString (cfg : Config) (key : String) : Except Err String :=
  match lookupCfg cfg key with
  | some (ConfigVal.str s) => Except.ok s
  | _ => Except.error (Err.configErr key)

/-- Models `config.GetList(key)`: a list value, or an error when the key is
absent or not a list. -/
def getList (cfg : Config) (key : String) : Except Err (List String) :=
  match lookupCfg cfg key with
  | some (ConfigVal.list xs) => Except.ok xs
  | _ => Except.error (Err.configErr key)

/-- Observable events of an operation, in the order the Go code performs them:
`execute cmd args` is a call of `executor().Execute(cmd, args, ...)`;
`logCmd cmd args` is the `log.Printf("running the cmd: %s with the args: %s", ...)`
line of `runCmd`; `logMsg m` is any other `log.Printf`/`log.Print` line. -/
inductive Event where
  | execute (cmd : String) (args : List String)
  | logCmd (cmd : String) (args : List String)
  | logMsg (msg : String)
deriving DecidableEq, Repr

def isExecute : Event → Bool
  | Event.execute _ _ => true
  | _ => false

def isLogCmd : Event → Bool
  | Event.logCmd _ _ => true
  | _ => false

/-- Number of external process executions in a trace. -/
def execCount (tr : List Event) : Nat := (tr.filter isExecute).length

/-- The process invoker (executor) at its interface boundary: given a command
and arguments it returns the captured combined output and an optional error. -/
def Invoker : Type := String → List String → String × Option Err

/-- An invoker that always returns the same output and outcome. -/
def constInvoker (out : String) (e : Option Err) : Invoker := fun _ _ => (out, e)

/-- Embeds `runCmd` of docker.go:

    out := bytes.Buffer\x7b\x7d
    err := executor().Execute(cmd, args, nil, &out, &out)
    log.Printf("running the cmd: %s with the args: %s", cmd, args)
    return out.String(), err

The executor runs first, then the command-and-arguments log line is emitted;
the trace records them in that order. -/
def runCmd (inv : Invoker) (cmd : String) (args : List String) :
    (String × Option Err) × List Event :=
  let r := inv cmd args
  (r, [Event.execute cmd args, Event.logCmd cmd args])

/-- JSON values, the image of Go `encoding/json` unmarshalling into
`interface\x7b\x7d`: null, booleans, numbers (kept as their lexeme), strings,
arrays and objects. -/
inductive Json where
  | null
  | bool (b : Bool)
  | num (lexeme : String)
  | str (s : String)
  | arr (elems : List Json)
  | obj (fields : List (String × Json))

/-- Skip JSON whitespace (space, tab, newline, carriage return). -/
def skipWs : List Char → List Char
  | c :: rest =>
    if c = ' ' || c = '\t' || c = '\n' || c = '\r' then skipWs rest else c :: rest
  | [] => []

def hexVal (c : Char) : Option Nat :=
  if '0' ≤ c ∧ c ≤ '9' then some (c.toNat - 48)
  else if 'a' ≤ c ∧ c ≤ 'f' then some (c.toNat - 97 + 10)
  else if 'A' ≤ c ∧ c ≤ 'F' then some (c.toNat - 65 + 10)
  else none

/-- Parse the body of a JSON string, after the opening quote, handling the
escape sequences of RFC 7159 as `encoding/json` accepts them. -/
def parseStringBody : Nat → List Char → List Char → Option (String × List Char)
  | 0, _, _ => none
  | _ + 1, [], _ => none
  | fuel + 1, c :: rest, acc =>
    if c = '\x22' then some (String.mk acc.reverse, rest)
    else if c = '\\' then
      match rest with
      | [] => none
      | e :: rest2 =>
        if e = '\x22' then parseStringBody fuel rest2 ('\x22' :: acc)
        else if e = '\\' then parseStringBody fuel rest2 ('\\' :: acc)
        else if e = '/' then parseStringBody fuel rest2 ('/' :: acc)
        else if e = 'n' then parseStringBody fuel rest2 ('\n' :: acc)
        else if e = 't' then parseStringBody fuel rest2 ('\t' :: acc)
        else if e = 'r' then parseStringBody fuel rest2 ('\r' :: acc)
        else if e = 'b' then parseStringBody fuel rest2 ('\x08' :: acc)
        else if e = 'f' then parseStringBody fuel rest2 ('\x0c' :: acc)
        else if e = 'u' then
          match rest2 with
          | h1 :: h2 :: h3 :: h4 :: rest3 =>
            match hexVal h1, hexVal h2, hexVal h3, hexVal h4 with
            | some a, some b, some cc, some d =>
              let n := ((a * 16 + b) * 16 + cc) * 16 + d
              if n < 1114112 ∧ ¬(55296 ≤ n ∧ n < 57344) then
                parseStringBody fuel rest3 (Char.ofNat n :: acc)
              else none
            | _, _, _, _ => none
          | _ => none
        else none
    else if c.toNat < 32 then none
    else parseStringBody fuel rest (c :: acc)

def splitDigits (cs : List Char) : List Char × List Char :=
  (cs.takeWhile (fun c => c.isDigit), cs.dropWhile (fun c => c.isDigit))

/-- Parse the optional fraction part of a JSON number. -/
def parseFrac (cs : List Char) : Option (List Char × List Char) :=
  match cs with
  | '.' :: rest =>
    let p := splitDigits rest
    if p.1 = [] then none else some ('.' :: p.1, p.2)
  | _ => some ([], cs)

/-- Parse the optional exponent part of a JSON number. -/
def parseExp (cs : List Char) : Option (List Char × List Char) :=
  match cs with
  | e :: rest =>
    if e = 'e' || e = 'E' then
      let p :=
        match rest with
        | s :: rest2 => if s = '+' || s = '-' then ([s], rest2) else ([], rest)
        | [] => ([], [])
      let q := splitDigits p.2
      if q.1 = [] then none else some (e :: p.1 ++ q.1, q.2)
    else some ([], cs)
  | [] => some ([], [])

/-- Parse a JSON number (strict grammar: no leading zeros, as `encoding/json`
enforces), returning its lexeme and the rest of the input. -/
def parseNumber (cs : List Char) : Option (String × List Char) :=
  let sr : List Char × List Char :=
    match cs with
    | '-' :: rest => (['-'], rest)
    | _ => ([], cs)
  match sr.2 with
  | c :: rest =>
    let ir : Option (List Char × List Char) :=
      if c = '0' then some (['0'], rest)
      else if c.isDigit then
        let p := splitDigits rest
        some (c :: p.1, p.2)
      else none
    match ir with
    | none => none
    | some (ipart, rest2) =>
      match parseFrac rest2 with
      | none => none
      | some (fpart, rest3) =>
        match parseExp rest3 with
        | none => none
        | some (epart, rest4) =>
          some (String.mk (sr.1 ++ ipart ++ fpart ++ epart), rest4)
  | [] => none

/-- Check that the input starts with the given literal characters. -/
def expectLit : List Char → List Char → Option (List Char)
  | [], cs => some cs
  | l :: ls, c :: cs => if c = l then expectLit ls cs else none
  | _ :: _, [] => none

mutual

/-- Parse one JSON value. The fuel strictly decreases on every recursive call;
`parseJson` supplies more fuel than any input can consume. -/
def parseValue : Nat → List Char → Option (Json × List Char)
  | 0, _ => none
  | fuel + 1, cs =>
    match skipWs cs with
    | [] => none
    | c :: rest =>
      if c = '\x22' then
        match parseStringBody (rest.length + 1) rest [] with
        | some (s, rest2) => some (Json.str s, rest2)
        | none => none
      else if c = '\x7b' then
        match skipWs rest with
        | '\x7d' :: rest2 => some (Json.obj [], rest2)
        | cs2 =>
          match parseMembers fuel cs2 with
          | some (fields, rest2) => some (Json.obj fields, rest2)
          | none => none
      else if c = '[' then
        match skipWs rest with
        | ']' :: rest2 => some (Json.arr [], rest2)
        | cs2 =>
          match parseElems fuel cs2 with
          | some (elems, rest2) => some (Json.arr elems, rest2)
          | none => none
      else if c = 't' then
        match expectLit ['r', 'u', 'e'] rest with
        | some rest2 => some (Json.bool true, rest2)
        | none => none
      else if c = 'f' then
        match expectLit ['a', 'l', 's', 'e'] rest with
        | some rest2 => some (Json.bool false, rest2)
        | none => none
      else if c = 'n' then
        match expectLit ['u', 'l', 'l'] rest with
        | some rest2 => some (Json.null, rest2)
        | none => none
      else
        match parseNumber (c :: rest) with
        | some (lex, rest2) => some (Json.num lex, rest2)
        | none => none

/-- Parse the members of a JSON object, after the opening brace (first member
known to be present). -/
def parseMembers : Nat → List Char → Option (List (String × Json) × List Char)
  | 0, _ => none
  | fuel + 1, cs =>
    match skipWs cs with
    | '\x22' :: rest =>
      match parseStringBody (rest.length + 1) rest [] with
      | some (k, rest2) =>
        match skipWs rest2 with
        | ':' :: rest3 =>
          match parseValue fuel rest3 with
          | some (v, rest4) =>
            match skipWs rest4 with
            | ',' :: rest5 =>
              match parseMembers fuel rest5 with
              | some (fields, rest6) => some ((k, v) :: fields, rest6)
              | none => none
            | '\x7d' :: rest5 => some ([(k, v)], rest5)
            | _ => none
          | none => none
        | _ => none
      | none => none
    | _ => none

/-- Parse the elements of a JSON array, after the opening bracket (first
element known to be present). -/
def parseElems : Nat → List Char → Option (List Json × List Char)
  | 0, _ => none
  | fuel + 1, cs =>
    match parseValue fuel cs with
    | some (v, rest) =>
      match skipWs rest with
      | ',' :: rest2 =>
        match parseElems fuel rest2 with
        | some (elems, rest3) => some (v :: elems, rest3)
        | none => none
      | ']' :: rest2 => some ([v], rest2)
      | _ => none
    | none => none

end

/-- Parse a whole JSON text: one value, with nothing but whitespace after it
(`encoding/json` rejects trailing garbage). -/
def parseJson (s : String) : Option Json :=
  match parseValue (s.length * 2 + 8) s.data with
  | some (v, rest) => if skipWs rest = [] then some v else none
  | none => none

/-- Look a key up in an unmarshalled object. Go builds a `map[string]...`, so
a duplicated key keeps its last value. -/
def mapLookup (fields : List (String × Json)) (key : String) : Option Json :=
  match fields with
  | [] => none
  | (k, v) :: rest =>
    match mapLookup rest key with
    | some r => some r
    | none => if k = key then some v else none

/-- Models `json.Unmarshal([]byte(s), &result)` for
`result : map[string]interface\x7b\x7d`: a JSON object yields its fields; the
text `null` is accepted and leaves the map nil (treated as empty here); any
other well-formed value is an unmarshalling type error, and ill-formed text a
syntax error — both surface as a non-nil error in Go, so both are `none`. -/
def unmarshalMap (s : String) : Option (List (String × Json)) :=
  match parseJson s with
  | some (Json.obj fields) => some fields
  | some Json.null => some []
  | _ => none

/-- The container entity: a caller-assigned name and a runtime id. -/
structure container where
  name : String
  id : String
deriving DecidableEq, Repr

/-- The outcome of a Go function that may panic: either a returned value or a
panic (an unchecked dynamic type assertion that fails). -/
inductive GoResult (α : Type) where
  | ret (a : α)
  | panicked (msg : String)
deriving DecidableEq, Repr

/-- Message of the error created when the inspect invocation fails (the source
reuses the format string itself as the error text). -/
def msgInspectErr : String :=
  "error(%s) trying to inspect docker instance(%s) to get ipaddress"

/-- Message of the error created when the inspect output is not valid JSON. -/
def msgParseErr : String :=
  "error(%s) parsing json from docker when trying to get ipaddress"

/-- Message of the error created when NetworkSettings is absent or null. -/
def msgNetworkSettingsMissing : String :=
  "Error when getting container information. NetworkSettings is missing."

/-- Message of the error created when the IpAddress field is empty. -/
def msgNoIpAddress : String := "error: Can\x27t get ipaddress..."

/-- Embeds `(c *container) ip()`. Reads the binary path (returning the
configuration error itself on failure), invokes `inspect <id>`, unmarshals the
output, checks that NetworkSettings is present and non-null, then performs the
two unchecked type assertions of the source — `.(map[string]interface\x7b\x7d)`
on NetworkSettings and `.(string)` on IpAddress — which panic when the value
has another shape; finally rejects an empty address. Every non-panicking exit
returns the pair (address, error) exactly as the Go code does. -/
def ip (c : container) (cfg : Config) (inv : Invoker) :
    GoResult (String × Option Err) × List Event :=
  match getString cfg "docker:binary" with
  | Except.error e => (GoResult.ret ("", some e), [])
  | Except.ok docker =>
    let ev0 := [Event.logMsg ("Getting ipaddress to instance " ++ c.id)]
    let r := runCmd inv docker ["inspect", c.id]
    let evs := ev0 ++ r.2
    match r.1.2 with
    | some _ =>
      (GoResult.ret ("", some (Err.domain msgInspectErr)),
        evs ++ [Event.logMsg msgInspectErr])
    | none =>
      match unmarshalMap r.1.1 with
      | none =>
        (GoResult.ret ("", some (Err.domain msgParseErr)),
          evs ++ [Event.logMsg msgParseErr])
      | some result =>
        match mapLookup result "NetworkSettings" with
        | none =>
          (GoResult.ret ("", some (Err.domain msgNetworkSettingsMissing)),
            evs ++ [Event.logMsg msgNetworkSettingsMissing])
        | some Json.null =>
          (GoResult.ret ("", some (Err.domain msgNetworkSettingsMissing)),
            evs ++ [Event.logMsg msgNetworkSettingsMissing])
        | some ns =>
          match ns with
          | Json.obj networkSettings =>
            match mapLookup networkSettings "IpAddress" with
            | some (Json.str instanceIp) =>
              if instanceIp = "" then
                (GoResult.ret ("", some (Err.domain msgNoIpAddress)),
                  evs ++ [Event.logMsg msgNoIpAddress])
              else
                (GoResult.ret (instanceIp, none),
                  evs ++ [Event.logMsg ("Instance IpAddress: " ++ instanceIp)])
            | some _ =>
              (GoResult.panicked
                "interface conversion: IpAddress is not a string", evs)
            | none =>
              (GoResult.panicked
                "interface conversion: interface is nil, not string", evs)
          | _ =>
            (GoResult.panicked
              "interface conversion: NetworkSettings is not a map", evs)

/-- Embeds `strings.Replace(id, "\n", "", -1)`: every occurrence of the
newline character is removed, wherever it occurs. -/
def stripNewlines (s : String) : String :=
  String.mk (s.data.filter (fun c => c != '\n'))

/-- Embeds `(c *container) create()`. It reads four configuration keys (each
missing key aborts with the configuration error, before any execution), then
invokes `run -d <template> <cmd> <args...>`, removes newlines from the output,
logs the id, and returns the id together with the invocation outcome. The Go
method never assigns to `c`, so the container is returned unchanged. -/
def create (c : container) (cfg : Config) (inv : Invoker) :
    (String × Option Err) × container × List Event :=
  match getString cfg "docker:binary" with
  | Except.error e => (("", some e), c, [])
  | Except.ok docker =>
  match getString cfg "docker:image" with
  | Except.error e => (("", some e), c, [])
  | Except.ok template =>
  match getString cfg "docker:cmd:bin" with
  | Except.error e => (("", some e), c, [])
  | Except.ok cmd =>
  match getList cfg "docker:cmd:args" with
  | Except.error e => (("", some e), c, [])
  | Except.ok args0 =>
    let args := ["run", "-d", template, cmd] ++ args0
    let r := runCmd inv docker args
    let id := stripNewlines r.1.1
    ((id, r.1.2), c, r.2 ++ [Event.logMsg ("docker id=" ++ id)])

/-- Embeds `(c *container) start()`: a no-op that always succeeds. -/
def start (c : container) : Option Err × container × List Event :=
  (none, c, [])

/-- Embeds `(c *container) stop()`: reads the binary, invokes `stop <id>`,
logs the raw output, returns the invocation outcome. -/
def stop (c : container) (cfg : Config) (inv : Invoker) :
    Option Err × container × List Event :=
  match getString cfg "docker:binary" with
  | Except.error e => (some e, c, [])
  | Except.ok docker =>
    let r := runCmd inv docker ["stop", c.id]
    (r.1.2, c,
      [Event.logMsg ("trying to stop instance " ++ c.id)] ++ r.2
        ++ [Event.logMsg ("docker stop=" ++ r.1.1)])

/-- Embeds `(c *container) remove()`: reads the binary, invokes `rm <id>`,
returns the invocation outcome. -/
def remove (c : container) (cfg : Config) (inv : Invoker) :
    Option Err × container × List Event :=
  match getString cfg "docker:binary" with
  | Except.error e => (some e, c, [])
  | Except.ok docker =>
    let r := runCmd inv docker ["rm", c.id]
    (r.1.2, c, [Event.logMsg ("trying to remove container " ++ c.id)] ++ r.2)

/-- The image entity. -/
structure image where
  name : String
  id : String
deriving DecidableEq, Repr

/-- Embeds `(img *image) repositoryName()`: reads the configured namespace;
when it is missing, logs a misconfiguration warning and returns the empty
string (the soft-failure case: the signature has no error channel at all);
otherwise returns `namespace ++ "/" ++ img.name`. -/
def repositoryName (img : image) (cfg : Config) : String × List Event :=
  match getString cfg "docker:repository-namespace" with
  | Except.error _ =>
    ("", [Event.logMsg
      "Tsuru is misconfigured. docker:repository-namespace config is missing."])
  | Except.ok registryUser => (registryUser ++ "/" ++ img.name, [])

/-- Embeds `(img *image) commit(cId)`: reads the binary (hard-failing on a
missing key), computes the repository name, invokes
`commit <cId> <repositoryName>`, and on invocation failure logs a message and
returns the underlying error itself. -/
def commit (img : image) (cId : String) (cfg : Config) (inv : Invoker) :
    Option Err × List Event :=
  match getString cfg "docker:binary" with
  | Except.error e =>
    (some e, [Event.logMsg "Tsuru is misconfigured. docker:binary config is missing."])
  | Except.ok docker =>
    let rn := repositoryName img cfg
    let r := runCmd inv docker ["commit", cId, rn.1]
    match r.1.2 with
    | some e =>
      (some e,
        [Event.logMsg ("attempting to commit image from container " ++ cId)]
          ++ rn.2 ++ r.2
          ++ [Event.logMsg ("Could not commit docker image: " ++ errString e)])
    | none =>
      (none,
        [Event.logMsg ("attempting to commit image from container " ++ cId)]
          ++ rn.2 ++ r.2)

/-! Test fixtures: a complete configuration (values taken from the sample
configuration file of the repository), and variants with a key removed. -/

/-- A complete configuration for the docker provisioner. -/
def fullCfg : Config :=
  [("docker:binary", ConfigVal.str "docker"),
   ("docker:image", ConfigVal.str "base"),
   ("docker:cmd:bin", ConfigVal.str "/var/lib/tsuru/start"),
   ("docker:cmd:args", ConfigVal.list ["--port", "8888"]),
   ("docker:repository-namespace", ConfigVal.str "tsuru")]

/-- `fullCfg` with one key removed. -/
def cfgWithout (key : String) : Config :=
  fullCfg.filter (fun p => p.1 != key)

/-- A container as constructed by a caller: name only, id not yet assigned. -/
def freshContainer : container := { name := "app", id := "" }

/-- A container whose id is already known. -/
def someContainer : container := { name := "app", id := "cid1" }

/-- The base image entity used in the examples. -/
def baseImage : image := { name := "base", id := "" }

/-- Run `ip` on `someContainer` under `fullCfg` with an invoker whose inspect
output is the given text, returning only the (value, error) outcome. -/
def ipOn (s : String) : GoResult (String × Option Err) :=
  (ip someContainer fullCfg (constInvoker s none)).1

/-- Whether the command-plus-arguments log event precedes the execution event
in a trace (false also when either event is absent). -/
def logCmdBeforeExec (tr : List Event) : Bool :=
  match List.findIdx? isLogCmd tr, List.findIdx? isExecute tr with
  | some i, some j => decide (i < j)
  | _, _ => false

/-- C1 (counterexample): `create()` does not strip exactly one trailing
newline; on invoker output "abc\n123\n" the claim predicts id "abc\n123"
(interior newline preserved), but the code produces "abc123". -/
theorem C1_counterexample :
    (create freshContainer fullCfg (constInvoker "abc\n123\n" none)).1
      = ("abc123", none)
    ∧ ("abc123" : String) ≠ "abc\n123" := by
  exact ⟨rfl, by decide⟩

/-- C1 (amended): `create()` removes every newline character from the invoker
output — trailing, interior or repeated — and changes nothing else; in
particular on output "abc123\n" the resulting id is "abc123". -/
theorem C1_create_removes_all_newlines :
    (∀ out : String,
      ((create freshContainer fullCfg (constInvoker out none)).1).1
        = String.mk (out.data.filter (fun c => c != '\n')))
    ∧ (create freshContainer fullCfg (constInvoker "abc123\n" none)).1
      = ("abc123", none) := by
  exact ⟨fun out => rfl, rfl⟩

/-- C2 (confirmed): on the four enumerated inspect outputs, `ip()` returns
the address, the two semantic-absence errors, and a parse error that is
distinct from the execution error. -/
theorem C2_ip_enumerated_outputs :
    ipOn "\x7b\"NetworkSettings\":\x7b\"IpAddress\":\"10.0.0.5\"\x7d\x7d"
      = GoResult.ret ("10.0.0.5", none)
    ∧ ipOn "\x7b\"NetworkSettings\":null\x7d"
      = GoResult.ret ("", some (Err.domain msgNetworkSettingsMissing))
    ∧ ipOn "\x7b\"NetworkSettings\":\x7b\"IpAddress\":\"\"\x7d\x7d"
      = GoResult.ret ("", some (Err.domain msgNoIpAddress))
    ∧ ipOn "not-json"
      = GoResult.ret ("", some (Err.domain msgParseErr))
    ∧ Err.domain msgParseErr ≠ Err.domain msgInspectErr := by
  exact ⟨rfl, rfl, rfl, rfl, by decide⟩

/-- C3 (counterexample): with `docker:repository-namespace` missing,
`repositoryName()` does not fail with a configuration error (it returns the
empty string, and its signature has no error channel), and `commit()` — which
reads that key through `repositoryName()` — performs one external invocation
and reports no error at all. -/
theorem C3_counterexample :
    (repositoryName baseImage (cfgWithout "docker:repository-namespace")).1 = ""
    ∧ (commit baseImage "cid1" (cfgWithout "docker:repository-namespace")
        (constInvoker "" none)).1 = none
    ∧ execCount (commit baseImage "cid1" (cfgWithout "docker:repository-namespace")
        (constInvoker "" none)).2 = 1 := by
  exact ⟨rfl, rfl, rfl⟩

/-- A missing key makes `getString` return the configuration error for it. -/
theorem getString_of_missing {cfg : Config} {key : String}
    (h : lookupCfg cfg key = none) :
    getString cfg key = Except.error (Err.configErr key) := by
  unfold getString
  rw [h]

/-- A missing key makes `getList` return the configuration error for it. -/
theorem getList_of_missing {cfg : Config} {key : String}
    (h : lookupCfg cfg key = none) :
    getList cfg key = Except.error (Err.configErr key) := by
  unfold getList
  rw [h]

/-- Every error `getString` ever produces is the configuration error for the
requested key. -/
theorem getString_error_shape {cfg : Config} {key : String} {e : Err}
    (h : getString cfg key = Except.error e) : e = Err.configErr key := by
  unfold getString at h
  cases hl : lookupCfg cfg key with
  | none =>
    rw [hl] at h
    exact (Except.error.inj h).symm
  | some v =>
    cases v with
    | str s =>
      rw [hl] at h
      exact absurd h (by simp)
    | list xs =>
      rw [hl] at h
      exact (Except.error.inj h).symm

/-- When `create` aborts on any of its four configuration lookups, the id is
empty, the error is a configuration error, and nothing was executed. -/
theorem create_missing_key_aborts (c : container) (cfg : Config) (inv : Invoker)
    (h : lookupCfg cfg "docker:binary" = none
      ∨ lookupCfg cfg "docker:image" = none
      ∨ lookupCfg cfg "docker:cmd:bin" = none
      ∨ lookupCfg cfg "docker:cmd:args" = none) :
    (create c cfg inv).1.1 = ""
    ∧ isConfigErrOpt (create c cfg inv).1.2 = true
    ∧ execCount (create c cfg inv).2.2 = 0 := by
  cases hb : getString cfg "docker:binary" with
  | error e =>
    rw [getString_error_shape hb] at hb
    simp [create, hb, isConfigErrOpt, execCount]
  | ok docker =>
    cases hi : getString cfg "docker:image" with
    | error e =>
      rw [getString_error_shape hi] at hi
      simp [create, hb, hi, isConfigErrOpt, execCount]
    | ok template =>
      cases hc : getString cfg "docker:cmd:bin" with
      | error e =>
        rw [getString_error_shape hc] at hc
        simp [create, hb, hi, hc, isConfigErrOpt, execCount]
      | ok cmd =>
        rcases h with h | h | h | h
        · rw [getString_of_missing h] at hb
          exact absurd hb (by simp)
        · rw [getString_of_missing h] at hi
          exact absurd hi (by simp)
        · rw [getString_of_missing h] at hc
          exact absurd hc (by simp)
        · simp [create, hb, hi, hc, getList_of_missing h, isConfigErrOpt,
            execCount]

/-- C3 (amended): for every configuration, invoker, container and image — for
the hard-failing keys `docker:binary`, `docker:image`, `docker:cmd:bin` and
`docker:cmd:args`, every operation among create/stop/remove/ip/commit that
reads a missing key fails with a configuration error and performs zero
external invocations (the invoker is never called); the namespace key is the
soft exception witnessed by the counterexample. -/
theorem C3_config_error_before_any_invocation :
    ∀ (cfg : Config) (inv : Invoker) (c : container) (img : image)
      (cId : String),
      (lookupCfg cfg "docker:binary" = none →
        (create c cfg inv).1 = ("", some (Err.configErr "docker:binary"))
        ∧ execCount (create c cfg inv).2.2 = 0
        ∧ (stop c cfg inv).1 = some (Err.configErr "docker:binary")
        ∧ execCount (stop c cfg inv).2.2 = 0
        ∧ (remove c cfg inv).1 = some (Err.configErr "docker:binary")
        ∧ execCount (remove c cfg inv).2.2 = 0
        ∧ (ip c cfg inv).1 = GoResult.ret ("", some (Err.configErr "docker:binary"))
        ∧ execCount (ip c cfg inv).2 = 0
        ∧ (commit img cId cfg inv).1 = some (Err.configErr "docker:binary")
        ∧ execCount (commit img cId cfg inv).2 = 0)
      ∧ (lookupCfg cfg "docker:image" = none →
        (create c cfg inv).1.1 = ""
        ∧ isConfigErrOpt (create c cfg inv).1.2 = true
        ∧ execCount (create c cfg inv).2.2 = 0)
      ∧ (lookupCfg cfg "docker:cmd:bin" = none →
        (create c cfg inv).1.1 = ""
        ∧ isConfigErrOpt (create c cfg inv).1.2 = true
        ∧ execCount (create c cfg inv).2.2 = 0)
      ∧ (lookupCfg cfg "docker:cmd:args" = none →
        (create c cfg inv).1.1 = ""
        ∧ isConfigErrOpt (create c cfg inv).1.2 = true
        ∧ execCount (create c cfg inv).2.2 = 0) := by
  intro cfg inv c img cId
  refine ⟨?_, ?_, ?_, ?_⟩
  · intro h
    have hb := getString_of_missing h
    refine ⟨?_, ?_, ?_, ?_, ?_, ?_, ?_, ?_, ?_, ?_⟩ <;>
      simp [create, stop, remove, ip, commit, hb, execCount, isExecute]
  · intro h
    exact create_missing_key_aborts c cfg inv (Or.inr (Or.inl h))
  · intro h
    exact create_missing_key_aborts c cfg inv (Or.inr (Or.inr (Or.inl h)))
  · intro h
    exact create_missing_key_aborts c cfg inv (Or.inr (Or.inr (Or.inr h)))

/-- C3 (witness): the empty configuration misses all four hard keys; applying
the amended theorem there, create aborts with the configuration error for the
binary key, executes nothing, and the other three missing-key hypotheses are
discharged as well. -/
theorem C3_config_error_witness :
    (create freshContainer ([] : Config) (constInvoker "x" none)).1
      = ("", some (Err.configErr "docker:binary"))
    ∧ execCount (create freshContainer ([] : Config) (constInvoker "x" none)).2.2 = 0
    ∧ (stop someContainer ([] : Config) (constInvoker "x" none)).1
      = some (Err.configErr "docker:binary")
    ∧ (ip someContainer ([] : Config) (constInvoker "x" none)).1
      = GoResult.ret ("", some (Err.configErr "docker:binary"))
    ∧ (commit baseImage "cid1" ([] : Config) (constInvoker "x" none)).1
      = some (Err.configErr "docker:binary")
    ∧ isConfigErrOpt
        (create freshContainer ([] : Config) (constInvoker "x" none)).1.2 = true := by
  have hA := C3_config_error_before_any_invocation ([] : Config)
    (constInvoker "x" none) freshContainer baseImage "cid1"
  have hB := (C3_config_error_before_any_invocation ([] : Config)
    (constInvoker "x" none) someContainer baseImage "cid1").1 rfl
  exact ⟨(hA.1 rfl).1, (hA.1 rfl).2.1, hB.2.2.1, hB.2.2.2.2.2.2.1,
    hB.2.2.2.2.2.2.2.2.1, ((hA.2.1 rfl).2.1 : _)⟩

/-- C4 (counterexample): failure mode (a) — configuration lookup of the
binary path fails — does not produce a domain error: `ip()` returns the
configuration error itself, a pure passthrough. -/
theorem C4_counterexample :
    (ip someContainer (cfgWithout "docker:binary") (constInvoker "x" none)).1
      = GoResult.ret ("", some (Err.configErr "docker:binary"))
    ∧ isDomainErr (Err.configErr "docker:binary") = false := by
  exact ⟨rfl, rfl⟩

/-- C4 (amended): failure modes (b)-(e) of `ip()` each produce a distinct
domain error (their four messages are pairwise different) and mode (a)
propagates the configuration error unchanged; in every failure case the
returned address is the empty string. -/
theorem C4_failure_modes_distinct :
    (ip someContainer fullCfg (constInvoker "x" (some (Err.execErr "boom")))).1
      = GoResult.ret ("", some (Err.domain msgInspectErr))
    ∧ ipOn "not-json" = GoResult.ret ("", some (Err.domain msgParseErr))
    ∧ ipOn "\x7b\"NetworkSettings\":null\x7d"
      = GoResult.ret ("", some (Err.domain msgNetworkSettingsMissing))
    ∧ ipOn "\x7b\"NetworkSettings\":\x7b\"IpAddress\":\"\"\x7d\x7d"
      = GoResult.ret ("", some (Err.domain msgNoIpAddress))
    ∧ ([msgInspectErr, msgParseErr, msgNetworkSettingsMissing,
        msgNoIpAddress] : List String).Nodup
    ∧ (ip someContainer (cfgWithout "docker:binary") (constInvoker "x" none)).1
      = GoResult.ret ("", some (Err.configErr "docker:binary")) := by
  exact ⟨rfl, rfl, rfl, rfl, by decide, rfl⟩

/-- C5 (confirmed): when NetworkSettings is present, non-null but not an
object, or is an object whose IpAddress is absent or not a string, `ip()`
does not reach any error return: the unchecked type assertions panic. -/
theorem C5_unchecked_assertions_panic :
    ipOn "\x7b\"NetworkSettings\":\"foo\"\x7d"
      = GoResult.panicked "interface conversion: NetworkSettings is not a map"
    ∧ ipOn "\x7b\"NetworkSettings\":\x7b\x7d\x7d"
      = GoResult.panicked "interface conversion: interface is nil, not string"
    ∧ ipOn "\x7b\"NetworkSettings\":\x7b\"IpAddress\":5\x7d\x7d"
      = GoResult.panicked "interface conversion: IpAddress is not a string" := by
  exact ⟨rfl, rfl, rfl⟩

/-- C6 (counterexample): after a successful `create()` on a container
constructed with a name only, the returned id is "abc123" but the container
id field is still empty: `create()` never assigns to the container. -/
theorem C6_counterexample :
    (create freshContainer fullCfg (constInvoker "abc123\n" none)).1
      = ("abc123", none)
    ∧ (create freshContainer fullCfg (constInvoker "abc123\n" none)).2.1.id = ""
    ∧ ("abc123" : String) ≠ "" := by
  exact ⟨rfl, rfl, by decide⟩

/-- C6 (amended): no operation of the core modifies the container value at
all — `create()` returns the runtime id to the caller without populating the
id field, and start/stop/remove leave the container unchanged as well. -/
theorem C6_no_operation_mutates_container :
    ∀ (c : container) (cfg : Config) (inv : Invoker),
      (create c cfg inv).2.1 = c
      ∧ (start c).2.1 = c
      ∧ (stop c cfg inv).2.1 = c
      ∧ (remove c cfg inv).2.1 = c := by
  intro c cfg inv
  refine ⟨?_, rfl, ?_, ?_⟩
  · unfold create
    repeat' split
    all_goals rfl
  · unfold stop
    repeat' split
    all_goals rfl
  · unfold remove
    repeat' split
    all_goals rfl

/-- C7 (confirmed): `repositoryName()` computes namespace/name from the
configuration at call time — "tsuru/base" for namespace tsuru and name base,
and generally `ns ++ "/" ++ name` — and with no namespace configured it
returns "" while only logging a warning (its signature has no error channel). -/
theorem C7_repositoryName_behavior :
    (repositoryName baseImage fullCfg).1 = "tsuru/base"
    ∧ (∀ ns nm : String,
        (repositoryName { name := nm, id := "" }
          [("docker:repository-namespace", ConfigVal.str ns)]).1
          = ns ++ "/" ++ nm)
    ∧ (repositoryName baseImage (cfgWithout "docker:repository-namespace")).1 = ""
    ∧ (repositoryName baseImage (cfgWithout "docker:repository-namespace")).2
      = [Event.logMsg
          "Tsuru is misconfigured. docker:repository-namespace config is missing."] := by
  exact ⟨rfl, fun ns nm => rfl, rfl, rfl⟩

/-- C8 (counterexample): on invocation failure `commit()` returns the
invoker error itself — a passthrough, not a distinct "commit failed" domain
error. -/
theorem C8_counterexample :
    (commit baseImage "cid1" fullCfg
      (constInvoker "" (some (Err.execErr "boom")))).1
      = some (Err.execErr "boom")
    ∧ isDomainErr (Err.execErr "boom") = false := by
  exact ⟨rfl, rfl⟩

/-- C8 (amended): `commit(cId)` invokes the commit command with exactly two
positional arguments after the subcommand — the container id then the
repository name, in that order — and on invocation failure logs a
commit-failure message but returns the underlying error unchanged. -/
theorem C8_commit_arguments_and_passthrough :
    (∀ (cId : String) (e : Err),
      commit baseImage cId fullCfg (constInvoker "" (some e))
        = (some e,
           [Event.logMsg ("attempting to commit image from container " ++ cId),
            Event.execute "docker" ["commit", cId, "tsuru/base"],
            Event.logCmd "docker" ["commit", cId, "tsuru/base"],
            Event.logMsg ("Could not commit docker image: " ++ errString e)]))
    ∧ (∀ cId : String,
        commit baseImage cId fullCfg (constInvoker "" none)
          = (none,
             [Event.logMsg ("attempting to commit image from container " ++ cId),
              Event.execute "docker" ["commit", cId, "tsuru/base"],
              Event.logCmd "docker" ["commit", cId, "tsuru/base"]])) := by
  exact ⟨fun cId e => rfl, fun cId => rfl⟩

/-- C9 (counterexample): in `runCmd`, the execution event comes first and the
command-plus-arguments log line second, so the log line does not precede the
external execution. -/
theorem C9_counterexample :
    (runCmd (constInvoker "" none) "docker" ["ps"]).2
      = [Event.execute "docker" ["ps"], Event.logCmd "docker" ["ps"]]
    ∧ logCmdBeforeExec (runCmd (constInvoker "" none) "docker" ["ps"]).2
      = false := by
  exact ⟨rfl, rfl⟩

/-- C9 (amended): for every invocation, the command-plus-arguments log line
is emitted immediately after the external process executes (and before the
invocation call returns): the execution event is at index 0 of the trace and
the log event at index 1. -/
theorem C9_log_follows_execution :
    ∀ (inv : Invoker) (cmd : String) (args : List String),
      (runCmd inv cmd args).2 = [Event.execute cmd args, Event.logCmd cmd args]
      ∧ List.findIdx? isExecute (runCmd inv cmd args).2 = some 0
      ∧ List.findIdx? isLogCmd (runCmd inv cmd args).2 = some 1 := by
  intro inv cmd args
  exact ⟨rfl, rfl, rfl⟩

/-- C10 (confirmed): when the run invocation inside `create()` fails, the
newline-stripped captured output is still returned in the id position
alongside the error; concretely, diagnostic output "Error: no such image\n"
yields the non-empty id "Error: no such image" together with the error. -/
theorem C10_create_returns_output_with_error :
    (∀ (out : String) (e : Err),
      (create freshContainer fullCfg (constInvoker out (some e))).1
        = (stripNewlines out, some e))
    ∧ (create freshContainer fullCfg
        (constInvoker "Error: no such image\n" (some (Err.execErr "exit status 1")))).1
      = ("Error: no such image", some (Err.execErr "exit status 1"))
    ∧ ("Error: no such image" : String) ≠ "" := by
  exact ⟨fun out e => rfl, rfl, by decide⟩

end Docker
